import Mathlib

/-!
Verification of the icon-type registry of the rust-icns crate
(`src/icontype.rs`): the `IconType` enumeration, the `OSType` four-byte
tag, the two lookup directions between them, the dimension queries, and
the diagnostic `Display` rendering of a tag.
-/

/-- A byte, the value of a Rust `u8`. -/
abbrev Byte := Fin 256

/-- Embeds `pub struct OSType(pub [u8; 4])`: a Macintosh OSType, four raw
bytes, stored in order. -/
structure OSType where
  b0 : Byte
  b1 : Byte
  b2 : Byte
  b3 : Byte
  deriving DecidableEq

/-- The four bytes of an `OSType` as a list of their numeric values, in
byte order. -/
def OSType.toList (t : OSType) : List Nat :=
  [t.b0.val, t.b1.val, t.b2.val, t.b3.val]

/-- Embeds `pub enum IconType`: the ten icon element types. -/
inductive IconType where
  | RGB24_16x16
  | Mask8_16x16
  | RGB24_32x32
  | Mask8_32x32
  | RGB24_128x128
  | Mask8_128x128
  | RGBA32_256x256
  | RGBA32_256x256_2x
  | RGBA32_512x512
  | RGBA32_512x512_2x
  deriving DecidableEq

/-- Embeds `IconType::from_ostype`: the match of the raw four bytes
against the ten known tag literals, in source order, with the catch-all
arm returning `None`.  Byte values spell the ASCII of each tag literal. -/
def IconType.from_ostype (t : OSType) : Option IconType :=
  if t = ⟨0x69, 0x73, 0x33, 0x32⟩ then some .RGB24_16x16 -- b"is32"
  else if t = ⟨0x73, 0x38, 0x6d, 0x6b⟩ then some .Mask8_16x16 -- b"s8mk"
  else if t = ⟨0x69, 0x6c, 0x33, 0x32⟩ then some .RGB24_32x32 -- b"il32"
  else if t = ⟨0x6c, 0x38, 0x6d, 0x6b⟩ then some .Mask8_32x32 -- b"l8mk"
  else if t = ⟨0x69, 0x74, 0x33, 0x32⟩ then some .RGB24_128x128 -- b"it32"
  else if t = ⟨0x74, 0x38, 0x6d, 0x6b⟩ then some .Mask8_128x128 -- b"t8mk"
  else if t = ⟨0x69, 0x63, 0x30, 0x38⟩ then some .RGBA32_256x256 -- b"ic08"
  else if t = ⟨0x69, 0x63, 0x31, 0x34⟩ then some .RGBA32_256x256_2x -- b"ic14"
  else if t = ⟨0x69, 0x63, 0x30, 0x39⟩ then some .RGBA32_512x512 -- b"ic09"
  else if t = ⟨0x69, 0x63, 0x31, 0x30⟩ then some .RGBA32_512x512_2x -- b"ic10"
  else none

/-- Embeds `IconType::ostype`: the exhaustive match picking the unique tag
for each variant. -/
def IconType.ostype : IconType → OSType
  | .RGB24_16x16 => ⟨0x69, 0x73, 0x33, 0x32⟩ -- b"is32"
  | .Mask8_16x16 => ⟨0x73, 0x38, 0x6d, 0x6b⟩ -- b"s8mk"
  | .RGB24_32x32 => ⟨0x69, 0x6c, 0x33, 0x32⟩ -- b"il32"
  | .Mask8_32x32 => ⟨0x6c, 0x38, 0x6d, 0x6b⟩ -- b"l8mk"
  | .RGB24_128x128 => ⟨0x69, 0x74, 0x33, 0x32⟩ -- b"it32"
  | .Mask8_128x128 => ⟨0x74, 0x38, 0x6d, 0x6b⟩ -- b"t8mk"
  | .RGBA32_256x256 => ⟨0x69, 0x63, 0x30, 0x38⟩ -- b"ic08"
  | .RGBA32_256x256_2x => ⟨0x69, 0x63, 0x31, 0x34⟩ -- b"ic14"
  | .RGBA32_512x512 => ⟨0x69, 0x63, 0x30, 0x39⟩ -- b"ic09"
  | .RGBA32_512x512_2x => ⟨0x69, 0x63, 0x31, 0x30⟩ -- b"ic10"

/-- The ten tags recognized by `IconType::from_ostype`, in source order. -/
def knownTags : List OSType :=
  [⟨0x69, 0x73, 0x33, 0x32⟩, ⟨0x73, 0x38, 0x6d, 0x6b⟩,
   ⟨0x69, 0x6c, 0x33, 0x32⟩, ⟨0x6c, 0x38, 0x6d, 0x6b⟩,
   ⟨0x69, 0x74, 0x33, 0x32⟩, ⟨0x74, 0x38, 0x6d, 0x6b⟩,
   ⟨0x69, 0x63, 0x30, 0x38⟩, ⟨0x69, 0x63, 0x31, 0x34⟩,
   ⟨0x69, 0x63, 0x30, 0x39⟩, ⟨0x69, 0x63, 0x31, 0x30⟩]

/-- Embeds `IconType::pixel_width` (a `u32`; all values fit far below
`2^32`, so `Nat` is exact). -/
def IconType.pixel_width : IconType → Nat
  | .RGB24_16x16 => 16
  | .Mask8_16x16 => 16
  | .RGB24_32x32 => 32
  | .Mask8_32x32 => 32
  | .RGB24_128x128 => 128
  | .Mask8_128x128 => 128
  | .RGBA32_256x256 => 256
  | .RGBA32_256x256_2x => 512
  | .RGBA32_512x512 => 512
  | .RGBA32_512x512_2x => 1024

/-- Embeds `IconType::screen_width` (a `u32`; `Nat` is exact). -/
def IconType.screen_width : IconType → Nat
  | .RGB24_16x16 => 16
  | .Mask8_16x16 => 16
  | .RGB24_32x32 => 32
  | .Mask8_32x32 => 32
  | .RGB24_128x128 => 128
  | .Mask8_128x128 => 128
  | .RGBA32_256x256 => 256
  | .RGBA32_256x256_2x => 256
  | .RGBA32_512x512 => 512
  | .RGBA32_512x512_2x => 512

/-- Embeds `std::char::from_u32`: `some` exactly when the value is a
Unicode scalar value, else `none`. -/
def charFromU32 (n : Nat) : Option Char :=
  if _h : n.isValidChar then some (Char.ofNat n) else none

/-- Embeds `impl fmt::Display for OSType`: the loop over the four raw
bytes, converting each with `std::char::from_u32(...).unwrap()` and
writing the characters in byte order.  The `unwrap` is modelled by the
`Option` bind: a failing `unwrap` (a panic) would surface as `none`. -/
def OSType.displayFmt (t : OSType) : Option (List Char) :=
  (charFromU32 t.b0.val).bind fun c0 =>
  (charFromU32 t.b1.val).bind fun c1 =>
  (charFromU32 t.b2.val).bind fun c2 =>
  (charFromU32 t.b3.val).map fun c3 => [c0, c1, c2, c3]

/-- Models the semantics of Rust `#[derive(PartialOrd, Ord)]` on
`OSType(pub [u8; 4])`: arrays of equal length compare element-wise,
first difference deciding — i.e. lexicographic comparison of the four
bytes in order. -/
def OSType.cmp (a b : OSType) : Ordering :=
  (compare a.b0.val b.b0.val).then
    ((compare a.b1.val b.b1.val).then
      ((compare a.b2.val b.b2.val).then (compare a.b3.val b.b3.val)))

/-! ## Helper lemmas -/

lemma charFromU32_byte (b : Byte) : charFromU32 b.val = some (Char.ofNat b.val) := by
  have h : b.val.isValidChar := Or.inl (Nat.lt_trans b.isLt (by norm_num))
  unfold charFromU32
  rw [dif_pos h]

set_option maxRecDepth 4096 in
lemma toNat_ofNat_byte : ∀ b : Byte, (Char.ofNat b.val).toNat = b.val := by decide

set_option maxHeartbeats 1000000 in
lemma from_ostype_some (t : OSType) (v : IconType)
    (h : IconType.from_ostype t = some v) : IconType.ostype v = t := by
  unfold IconType.from_ostype at h
  split_ifs at h with h1 h2 h3 h4 h5 h6 h7 h8 h9 h10 <;>
    (try cases h) <;> simp_all [IconType.ostype]

lemma lex_cons_iff (a b : Nat) (l1 l2 : List Nat) :
    List.Lex (· < ·) (a :: l1) (b :: l2) ↔ a < b ∨ (a = b ∧ List.Lex (· < ·) l1 l2) := by
  constructor
  · intro h
    cases h with
    | rel h => exact Or.inl h
    | cons h => exact Or.inr ⟨rfl, h⟩
  · rintro (h | ⟨rfl, h⟩)
    · exact List.Lex.rel h
    · exact List.Lex.cons h

lemma lex_nil_iff (l : List Nat) : List.Lex (· < ·) l [] ↔ False := by
  constructor
  · intro h
    cases h
  · exact False.elim

/-! ## Claims -/

/-- C1: for every one of the 10 `IconType` variants `v`,
`IconType.from_ostype (v.ostype)` returns `some v`: composing
tag-for-variant with lookup-by-tag is the identity on every variant. -/
theorem c1_variant_roundtrip :
    ∀ v : IconType, IconType.from_ostype (IconType.ostype v) = some v := by
  intro v
  cases v <;> rfl

set_option maxHeartbeats 1000000 in
/-- C2: for every 4-byte OSType whose bytes are not one of the 10 known
tag byte sequences, `IconType.from_ostype` returns `none` — never a
panic, never `some` of any variant. -/
theorem c2_unknown_tag_none (t : OSType) (h : t ∉ knownTags) :
    IconType.from_ostype t = none := by
  unfold IconType.from_ostype
  split_ifs with h1 h2 h3 h4 h5 h6 h7 h8 h9 h10 <;>
    first
      | rfl
      | (subst_vars; exact absurd (by decide) h)

/-- Witness for C2 at the unrecognized tag b"xxxx". -/
theorem c2_unknown_tag_none_witness :
    (⟨0x78, 0x78, 0x78, 0x78⟩ : OSType) ∉ knownTags ∧
      IconType.from_ostype ⟨0x78, 0x78, 0x78, 0x78⟩ = none :=
  ⟨by decide, c2_unknown_tag_none ⟨0x78, 0x78, 0x78, 0x78⟩ (by decide)⟩

/-- C3: the mapping is injective in both directions: distinct variants
have distinct tags, and distinct recognized tags look up to distinct
`some` results. -/
theorem c3_injective :
    (∀ v1 v2 : IconType, v1 ≠ v2 → IconType.ostype v1 ≠ IconType.ostype v2) ∧
    (∀ t1 t2 : OSType, t1 ≠ t2 → (IconType.from_ostype t1).isSome →
      (IconType.from_ostype t2).isSome →
      IconType.from_ostype t1 ≠ IconType.from_ostype t2) := by
  constructor
  · intro v1 v2 h
    cases v1 <;> cases v2 <;> first | exact absurd rfl h | decide
  · intro t1 t2 hne hs1 hs2 heq
    obtain ⟨v1, hv1⟩ := Option.isSome_iff_exists.mp hs1
    obtain ⟨v2, hv2⟩ := Option.isSome_iff_exists.mp hs2
    apply hne
    rw [← from_ostype_some t1 v1 hv1, ← from_ostype_some t2 v2 hv2]
    rw [hv1, hv2] at heq
    injection heq with h
    rw [h]

/-- Witness for C3: the two injectivity statements applied at the first
two variants and their tags, b"is32" and b"s8mk". -/
theorem c3_injective_witness :
    IconType.ostype .RGB24_16x16 ≠ IconType.ostype .Mask8_16x16 ∧
      IconType.from_ostype ⟨0x69, 0x73, 0x33, 0x32⟩ ≠
        IconType.from_ostype ⟨0x73, 0x38, 0x6d, 0x6b⟩ :=
  ⟨c3_injective.1 .RGB24_16x16 .Mask8_16x16 (by decide),
   c3_injective.2 ⟨0x69, 0x73, 0x33, 0x32⟩ ⟨0x73, 0x38, 0x6d, 0x6b⟩
     (by decide) (by decide) (by decide)⟩

/-- C4: `screen_width` takes values in {16, 32, 128, 256, 512};
`pixel_width` is the screen width or its double, the double exactly for
the two 2x retina variants and the screen width itself for the eight
others.  Both functions are total by construction. -/
theorem c4_widths : ∀ v : IconType,
    IconType.screen_width v ∈ [16, 32, 128, 256, 512] ∧
    (IconType.pixel_width v = IconType.screen_width v ∨
      IconType.pixel_width v = 2 * IconType.screen_width v) ∧
    (IconType.pixel_width v = 2 * IconType.screen_width v ↔
      (v = .RGBA32_256x256_2x ∨ v = .RGBA32_512x512_2x)) ∧
    (IconType.pixel_width v = IconType.screen_width v ↔
      ¬(v = .RGBA32_256x256_2x ∨ v = .RGBA32_512x512_2x)) := by
  intro v
  cases v <;> decide

/-- C5: the tag b"ic14" looks up to `RGBA32_256x256_2x`, whose pixel
width is 512 and screen width is 256. -/
theorem c5_ic14 :
    IconType.from_ostype ⟨0x69, 0x63, 0x31, 0x34⟩ = some .RGBA32_256x256_2x ∧
      IconType.pixel_width .RGBA32_256x256_2x = 512 ∧
      IconType.screen_width .RGBA32_256x256_2x = 256 := by
  decide

/-- C6: the tag b"ic10" looks up to `RGBA32_512x512_2x`, whose pixel
width is 1024 and screen width is 512. -/
theorem c6_ic10 :
    IconType.from_ostype ⟨0x69, 0x63, 0x31, 0x30⟩ = some .RGBA32_512x512_2x ∧
      IconType.pixel_width .RGBA32_512x512_2x = 1024 ∧
      IconType.screen_width .RGBA32_512x512_2x = 512 := by
  decide

/-- C7: the `Display` rendering of any `OSType` produces exactly 4 code
points whose numeric values are the 4 bytes in byte order; in particular
bytes 0x69 0x63 0x30 0x38 render as "ic08", and a byte ≥ 0x80 renders as
the Latin-1 code point without error. -/
theorem c7_display :
    (∀ t : OSType, (OSType.displayFmt t).map (List.map Char.toNat) = some t.toList) ∧
    (∀ t : OSType, (OSType.displayFmt t).map List.length = some 4) ∧
    OSType.displayFmt ⟨0x69, 0x63, 0x30, 0x38⟩ = some ("ic08".data) ∧
    OSType.displayFmt ⟨0xe9, 0x63, 0x30, 0x38⟩ =
      some [Char.ofNat 0xe9, 'c', '0', '8'] := by
  refine ⟨?_, ?_, ?_, ?_⟩
  · intro t
    obtain ⟨b0, b1, b2, b3⟩ := t
    simp [OSType.displayFmt, OSType.toList, charFromU32_byte, toNat_ofNat_byte]
  · intro t
    obtain ⟨b0, b1, b2, b3⟩ := t
    simp [OSType.displayFmt, charFromU32_byte]
  · rfl
  · rfl

/-- C8: nothing in this core can panic: in particular
`std::char::from_u32` succeeds on every byte value 0..=255 (every such
value is a valid Unicode scalar value), so the `unwrap` inside the
`Display` implementation never fails on any `OSType`.  The remaining
operations (`from_ostype`, `ostype`, `pixel_width`, `screen_width`) are
total functions of the embedding by construction. -/
theorem c8_no_panic :
    (∀ b : Byte, (charFromU32 b.val).isSome = true) ∧
    (∀ t : OSType, (OSType.displayFmt t).isSome = true) := by
  constructor
  · intro b
    rw [charFromU32_byte b]
    rfl
  · intro t
    obtain ⟨b0, b1, b2, b3⟩ := t
    simp [OSType.displayFmt, charFromU32_byte]

/-- C9: equality of `OSType` is structural over the 4 bytes, and the
derived comparison coincides with byte-lexicographic order on the 4-byte
sequences (`List.Lex (· < ·)` on the byte lists). -/
theorem c9_order :
    (∀ a b : OSType, a = b ↔ a.toList = b.toList) ∧
    (∀ a b : OSType, OSType.cmp a b = .eq ↔ a = b) ∧
    (∀ a b : OSType, OSType.cmp a b = .lt ↔ List.Lex (· < ·) a.toList b.toList) ∧
    (∀ a b : OSType, OSType.cmp a b = .gt ↔ List.Lex (· < ·) b.toList a.toList) := by
  refine ⟨?_, ?_, ?_, ?_⟩ <;> intro a b <;>
    obtain ⟨a0, a1, a2, a3⟩ := a <;> obtain ⟨b0, b1, b2, b3⟩ := b
  · simp [OSType.toList, OSType.mk.injEq, Fin.ext_iff]
  · simp [OSType.cmp, Ordering.then_eq_eq, Nat.compare_eq_eq, OSType.mk.injEq,
      Fin.ext_iff]
  · simp [OSType.cmp, OSType.toList, Ordering.then_eq_lt, Nat.compare_eq_lt,
      Nat.compare_eq_eq, lex_cons_iff, lex_nil_iff]
  · simp [OSType.cmp, OSType.toList, Ordering.then_eq_gt, Nat.compare_eq_gt,
      Nat.compare_eq_eq, lex_cons_iff, lex_nil_iff]
    omega

/-- C10: the reverse round trip: whenever `from_ostype t = some v`, the
tag of `v` is `t` itself — lookup-by-tag followed by tag-for-variant is
the identity on recognized tags. -/
theorem c10_reverse_roundtrip (t : OSType) (v : IconType)
    (h : IconType.from_ostype t = some v) : IconType.ostype v = t :=
  from_ostype_some t v h

/-- Witness for C10 at the tag b"t8mk". -/
theorem c10_reverse_roundtrip_witness :
    IconType.from_ostype ⟨0x74, 0x38, 0x6d, 0x6b⟩ = some .Mask8_128x128 ∧
      IconType.ostype .Mask8_128x128 = ⟨0x74, 0x38, 0x6d, 0x6b⟩ :=
  ⟨by decide, c10_reverse_roundtrip ⟨0x74, 0x38, 0x6d, 0x6b⟩ .Mask8_128x128 (by decide)⟩
